import Mathlib

/-!
Shallow embedding of `src/index.html.jsx` (a single-file React app:
ELI5 toggle, font-size slider persisted in localStorage, lesson cards,
a quick quiz, and a floating help widget), together with proofs about
its state-handling logic.

JavaScript numbers that arise here are NaN, ±Infinity, or finite values;
finite values are modelled as rationals (every numeric literal and every
arithmetic step in the app is exactly representable).
-/

/-- JavaScript number values as they occur in the app. -/
inductive JSNumber where
  | nan : JSNumber
  | posInf : JSNumber
  | negInf : JSNumber
  | finite : ℚ → JSNumber
deriving DecidableEq

/-- `Number.isFinite(n)`. -/
def JSNumber.isFinite : JSNumber → Bool
  | .finite _ => true
  | _ => false

/-- `Math.min(a, b)`: NaN-propagating minimum. -/
def jsMin (a b : JSNumber) : JSNumber :=
  match a, b with
  | .nan, _ => .nan
  | _, .nan => .nan
  | .negInf, _ => .negInf
  | _, .negInf => .negInf
  | .posInf, b => b
  | a, .posInf => a
  | .finite x, .finite y => .finite (min x y)

/-- `Math.max(a, b)`: NaN-propagating maximum. -/
def jsMax (a b : JSNumber) : JSNumber :=
  match a, b with
  | .nan, _ => .nan
  | _, .nan => .nan
  | .posInf, _ => .posInf
  | _, .posInf => .posInf
  | .negInf, b => b
  | a, .negInf => a
  | .finite x, .finite y => .finite (max x y)

/-- Source line 18: `const clamp = (n, min, max) => Math.max(min, Math.min(max, n));` -/
def clamp (n mn mx : JSNumber) : JSNumber := jsMax mn (jsMin mx n)

/-! ### ECMAScript ToNumber on strings

`Number(s)` trims whitespace and parses a `StringNumericLiteral`:
the empty remainder is 0; otherwise an optionally signed decimal literal
or `Infinity`, or an unsigned `0x`/`0o`/`0b` radix literal; anything
else is NaN. -/

/-- ASCII whitespace accepted by the JS string-to-number trimming step. -/
def isJsWhitespace (c : Char) : Bool :=
  c = ' ' || c = '\t' || c = '\n' || c = '\r' || c = '\x0b' || c = '\x0c'

/-- Trim leading and trailing JS whitespace from a character list. -/
def trimJsWs (cs : List Char) : List Char :=
  ((cs.dropWhile isJsWhitespace).reverse.dropWhile isJsWhitespace).reverse

/-- Value of a list of decimal digit characters. -/
def digitsToNat (ds : List Char) : Nat :=
  ds.foldl (fun a c => a * 10 + (c.toNat - 48)) 0

/-- Parse the digits of an exponent part, with optional sign. -/
def parseExpDigits : List Char → Option ℤ
  | [] => none
  | '+' :: r => if r ≠ [] ∧ r.all Char.isDigit then some (digitsToNat r) else none
  | '-' :: r => if r ≠ [] ∧ r.all Char.isDigit then some (-(digitsToNat r : ℤ)) else none
  | r => if r.all Char.isDigit then some (digitsToNat r) else none

/-- The exact rational value `(num / den) * 10 ^ e` (the value of a decimal
mantissa `num / den` scaled by a decimal exponent `e`). -/
def scaleByTenPow (num : ℕ) (den : ℕ) (e : ℤ) : ℚ :=
  if 0 ≤ e then mkRat (num * 10 ^ e.toNat) den
  else mkRat num (den * 10 ^ (-e).toNat)

/-- Apply an optional `e`/`E` exponent suffix to a mantissa `num / den`; the
suffix must consume the whole remainder. -/
def applyExponent (num : ℕ) (den : ℕ) : List Char → Option ℚ
  | [] => some (scaleByTenPow num den 0)
  | c :: rest =>
    if c = 'e' ∨ c = 'E' then
      (parseExpDigits rest).map (scaleByTenPow num den)
    else none

/-- Parse an unsigned decimal literal (digits, optional fraction, optional
exponent), consuming the whole list; the value `i.f × 10^e` is represented
exactly as the rational `(i·10^k + f) / 10^k · 10^e` for `k` fraction
digits. -/
def parseUnsignedDecimal (cs : List Char) : Option ℚ :=
  let intPart := cs.takeWhile Char.isDigit
  let rest := cs.dropWhile Char.isDigit
  match rest with
  | '.' :: rest2 =>
    let fracPart := rest2.takeWhile Char.isDigit
    let rest3 := rest2.dropWhile Char.isDigit
    if intPart.isEmpty && fracPart.isEmpty then none
    else applyExponent
      (digitsToNat intPart * 10 ^ fracPart.length + digitsToNat fracPart)
      (10 ^ fracPart.length)
      rest3
  | _ =>
    if intPart.isEmpty then none
    else applyExponent (digitsToNat intPart) 1 rest

/-- Value of one digit character in the given radix, if valid. -/
def digitValueIn (radix : Nat) (c : Char) : Option Nat :=
  let v :=
    if '0' ≤ c ∧ c ≤ '9' then some (c.toNat - 48)
    else if 'a' ≤ c ∧ c ≤ 'f' then some (c.toNat - 87)
    else if 'A' ≤ c ∧ c ≤ 'F' then some (c.toNat - 55)
    else none
  match v with
  | some d => if d < radix then some d else none
  | none => none

/-- Parse a non-empty run of radix digits consuming the whole list. -/
def parseRadixDigits (radix : Nat) (cs : List Char) : Option Nat :=
  if cs.isEmpty then none
  else cs.foldl
    (fun acc c =>
      match acc, digitValueIn radix c with
      | some a, some d => some (a * radix + d)
      | _, _ => none)
    (some 0)

/-- Parse the part a sign may precede: `Infinity` or a decimal literal. -/
def parseSignableNumeric (cs : List Char) : Option JSNumber :=
  if cs = "Infinity".toList then some .posInf
  else (parseUnsignedDecimal cs).map .finite

/-- Parse an unsigned numeric literal: a `0x`/`0o`/`0b` radix literal,
`Infinity`, or a decimal literal. -/
def parseUnsignedNumeric (cs : List Char) : Option JSNumber :=
  match cs with
  | '0' :: c :: rest =>
    if c = 'x' ∨ c = 'X' then (parseRadixDigits 16 rest).map (fun n => .finite (n : ℚ))
    else if c = 'o' ∨ c = 'O' then (parseRadixDigits 8 rest).map (fun n => .finite (n : ℚ))
    else if c = 'b' ∨ c = 'B' then (parseRadixDigits 2 rest).map (fun n => .finite (n : ℚ))
    else parseSignableNumeric cs
  | _ => parseSignableNumeric cs

/-- `Number(s)` for a string `s`. -/
def jsStringToNumber (s : String) : JSNumber :=
  match trimJsWs s.toList with
  | [] => .finite 0
  | '+' :: rest => (parseSignableNumeric rest).getD .nan
  | '-' :: rest =>
    match parseSignableNumeric rest with
    | some .posInf => .negInf
    | some (.finite q) => .finite (-q)
    | _ => .nan
  | cs => (parseUnsignedNumeric cs).getD .nan

/-- `Number(v)` for `v : string | null` (what `localStorage.getItem` returns);
`Number(null)` is `+0`. -/
def jsToNumber : Option String → JSNumber
  | none => .finite 0
  | some s => jsStringToNumber s

/-- `String(n)` for the integer-valued numbers the app persists: ECMAScript
ToString on an integer-valued number prints its decimal digits (with a
leading `-` when negative). -/
def jsIntToString (v : ℤ) : String := toString v

/-! ### localStorage -/

/-- The browser's localStorage: a map from keys to stored strings. -/
def Storage : Type := String → Option String

/-- `localStorage.getItem(k)`. -/
def Storage.getItem (st : Storage) (k : String) : Option String := st k

/-- `localStorage.setItem(k, v)`. -/
def Storage.setItem (st : Storage) (k v : String) : Storage :=
  fun q => if q = k then some v else st q

/-- Storage with no stored values (fresh browser profile). -/
def emptyStorage : Storage := fun _ => none

/-- Source lines 13-16: the two storage keys. -/
def LS_KEYS.eli5 : String := "app:eli5"

/-- Source lines 13-16: the font-size storage key. -/
def LS_KEYS.fontSize : String := "app:fontSizePx"

/-! ### Lessons and LessonCard -/

/-- One lesson's data (source lines 21-46). -/
structure Lesson where
  id : String
  title : String
  normal : String
  eli5 : String
deriving DecidableEq

/-- Source lines 21-46: the three lesson cards. -/
def lessons : List Lesson :=
  [ { id := "lesson1"
      title := "Turning On a Computer"
      normal := "Press the power button on your computer case or laptop. Wait a few seconds until the screen lights up and the system loads."
      eli5 := "Find the round button with a line ‚ö°. Press it gently. Wait a bit ‚Äî your computer wakes up like a person opening their eyes." },
    { id := "lesson2"
      title := "Using a Mouse"
      normal := "Move the mouse on a flat surface. The pointer on the screen follows your hand movements. Click the left button to select."
      eli5 := "Slide the mouse like a tiny car üöó. The arrow copies you! Tap the left button to pick things." },
    { id := "lesson3"
      title := "Opening Programs"
      normal := "Click the Start button (Windows logo) on the taskbar. Choose a program from the list to open it."
      eli5 := "Click the little window button ü™ü at the corner. Pick the picture of the app you want‚Äîlike choosing a toy from a box!" } ]

/-- Which of a lesson card's two paragraphs are rendered visible. -/
structure CardView where
  normalShown : Bool
  eli5Shown : Bool
deriving DecidableEq

/-- Source lines 94-101 (`LessonCard`): the normal paragraph's class is
`hidden` when `showEli5` and `block` otherwise; the ELI5 paragraph's class
is `block` when `showEli5` and `hidden` otherwise. -/
def lessonCardView (showEli5 : Bool) : CardView :=
  { normalShown := !showEli5, eli5Shown := showEli5 }

/-! ### Quiz -/

/-- Quiz component state: `useState<string | null>(null)` (source line 104). -/
structure QuizState where
  answer : Option String
deriving DecidableEq

/-- Source line 104: initial quiz state. -/
def Quiz.init : QuizState := ⟨none⟩

/-- Source lines 112-116: the quiz option keys, in render order. -/
def quizOptionKeys : List String := ["correct", "mouse", "spacebar"]

/-- Source line 120: an option button's onClick runs `setAnswer(opt.key)`. -/
def selectOption (_st : QuizState) (key : String) : QuizState := ⟨some key⟩

/-- Source line 105: `const isCorrect = answer === "correct";` -/
def QuizState.isCorrect (st : QuizState) : Bool := st.answer = some "correct"

/-- Source line 133: the positive feedback text. -/
def correctFeedback : String := "‚úÖ Correct! That‚Äôs the power button."

/-- Source line 133: the negative feedback text. -/
def wrongFeedback : String := "‚ùå Not quite. Try again!"

/-- Source lines 131-135: the feedback paragraph is rendered only when
`answer` is truthy (every settable key is a non-empty string), and shows the
positive text exactly when `isCorrect`. -/
def quizFeedback (st : QuizState) : Option String :=
  match st.answer with
  | none => none
  | some a =>
    if a = "" then none
    else some (if st.isCorrect then correctFeedback else wrongFeedback)

/-! ### HelpWidget -/

/-- `s.trim()` for the input strings of the help widget: removes leading and
trailing whitespace. -/
def jsTrim (s : String) : String := String.mk (trimJsWs s.toList)

/-- Sender tag of a chat message: `"you" | "bot"`. -/
inductive Sender where
  | you : Sender
  | bot : Sender
deriving DecidableEq

/-- One chat message `{ from, text }` (the source's `from` field is `from_`
here, `from` being reserved in Lean). -/
structure Message where
  from_ : Sender
  text : String
deriving DecidableEq

/-- Source lines 142-144: the initial message log holds one bot greeting. -/
def initialMessages : List Message :=
  [⟨.bot, "Hi! Need help? Ask me about any lesson."⟩]

/-- HelpWidget component state (source lines 141-145): panel-open flag,
message log, input text. -/
structure HelpState where
  panelOpen : Bool
  messages : List Message
  text : String
deriving DecidableEq

/-- Source lines 141-145: initial HelpWidget state — panel closed, the one
greeting message, empty input. -/
def HelpWidget.init : HelpState := ⟨false, initialMessages, ""⟩

/-- Source line 158: the fixed canned bot reply. -/
def cannedReply : String :=
  "I‚Äôll explain simply: computers are tools. Which part confuses you ‚Äî power button, mouse, or opening apps?"

/-- Source lines 147-162 (`send`): trims the input; returns unchanged on an
empty trim; otherwise runs two queued functional `setMessages` updates —
React applies queued functional updaters in order, so the first appends the
user message and the second appends the user message again plus the canned
reply — then clears the input. -/
def send (st : HelpState) : HelpState :=
  let t := jsTrim st.text
  if t = "" then st
  else
    let m1 := st.messages ++ [⟨.you, t⟩]
    let m2 := m1 ++ [⟨.you, t⟩, ⟨.bot, cannedReply⟩]
    { st with messages := m2, text := "" }

/-- Source line 209: the floating button's onClick runs `setOpen(v => !v)`. -/
def toggleOpen (st : HelpState) : HelpState :=
  { st with panelOpen := !st.panelOpen }

/-! ### App -/

/-- The App-level persisted/derived state the claims talk about, combined
with the component states mounted under it. -/
structure AppState where
  eli5 : Bool
  fontSize : JSNumber
  quiz : QuizState
  help : HelpState
deriving DecidableEq

/-- Source lines 223-226: the `fontSize` initializer —
`Number(localStorage.getItem(...))`, then `Number.isFinite(saved) ?
clamp(saved, 14, 24) : 16`. -/
def loadFontSize (stored : Option String) : JSNumber :=
  let saved := jsToNumber stored
  if saved.isFinite then clamp saved (.finite 14) (.finite 24) else .finite 16

/-- Source lines 222 and 228-231: `eli5` starts `false`; the mount effect
reads the stored value and, when it is truthy (non-null and non-empty),
sets `eli5` to whether it equals `"true"`. -/
def loadEli5 (stored : Option String) : Bool :=
  match stored with
  | none => false
  | some s => if s = "" then false else s = "true"

/-- Source line 268: the font slider's onChange runs
`setFontSize(clamp(Number(e.target.value), 14, 24))`. -/
def onFontSizeChange (value : String) : JSNumber :=
  clamp (jsStringToNumber value) (.finite 14) (.finite 24)

/-- Source lines 237-239: the persistence effect
`localStorage.setItem(LS_KEYS.fontSize, String(fontSize))`, for the
integer-valued sizes the slider produces. -/
def persistFontSize (st : Storage) (v : ℤ) : Storage :=
  st.setItem LS_KEYS.fontSize (jsIntToString v)

/-- App state right after a load against the given storage: the `useState`
initializers of `App` (lines 222-226), the mount effect for `eli5`
(lines 228-231), and the initial states of `Quiz` (line 104) and
`HelpWidget` (lines 141-145). -/
def App.init (st : Storage) : AppState :=
  { eli5 := loadEli5 (st.getItem LS_KEYS.eli5)
    fontSize := loadFontSize (st.getItem LS_KEYS.fontSize)
    quiz := Quiz.init
    help := HelpWidget.init }

/-! ## Theorems -/

/-- Helper: clamping a finite number between the finite bounds 14 and 24
is the pointwise rational clamp. -/
theorem clamp_finite_14_24 (q : ℚ) :
    clamp (.finite q) (.finite 14) (.finite 24) = .finite (max 14 (min 24 q)) := rfl

/-- C1: the claim says a send with non-empty trimmed input appends exactly
two entries (user message then fixed reply). On the code, the two queued
functional `setMessages` updates both append the user message, so a send
appends three entries — user, user, bot — as this evaluation at input
`" hi "` shows. The reply text itself is the fixed `cannedReply`. -/
theorem send_appends_three_entries :
    (send ⟨true, initialMessages, " hi "⟩).messages =
      initialMessages ++ [⟨.you, "hi"⟩, ⟨.you, "hi"⟩, ⟨.bot, cannedReply⟩] ∧
    ((send ⟨true, initialMessages, " hi "⟩).messages.length =
      initialMessages.length + 3) := by
  constructor <;> decide

/-- C2: the claim says a missing or non-decimal-integer stored font-size
value loads as the default 16. On the code, a missing value loads as 14:
`Number(null)` is `0`, which is finite, so the initializer clamps it to 14
and never reaches the `16` fallback; likewise the non-integer string
`"12.5"` loads as 14, not 16. -/
theorem loadFontSize_missing_is_14 :
    loadFontSize none = .finite 14 ∧
    loadFontSize (some "12.5") = .finite 14 ∧
    JSNumber.finite (14 : ℚ) ≠ .finite 16 := by
  refine ⟨by decide, by decide, by decide⟩

/-- C3: the claim says a fresh load (no stored values) yields simplified
mode off, font size 16, quiz unanswered, help panel collapsed, and exactly
the one greeting message. On the code, every component matches except the
font size, which is 14 (see `loadFontSize_missing_is_14`): this evaluation
computes the full fresh initial state. -/
theorem appInit_fresh_state :
    App.init emptyStorage =
      { eli5 := false, fontSize := .finite 14, quiz := ⟨none⟩,
        help := ⟨false, initialMessages, ""⟩ } ∧
    (App.init emptyStorage).fontSize ≠ .finite 16 := by
  refine ⟨rfl, by decide⟩

/-- C4: storing an integer font size `v ∈ [14,24]` (the persistence effect
writes its decimal string) and re-running the load initializer on the
stored value restores exactly `v`. -/
theorem fontSize_store_load_roundtrip (st : Storage) (v : ℤ)
    (h1 : 14 ≤ v) (h2 : v ≤ 24) :
    loadFontSize ((persistFontSize st v).getItem LS_KEYS.fontSize) = .finite v := by
  have hget : (persistFontSize st v).getItem LS_KEYS.fontSize =
      some (jsIntToString v) := by
    simp [persistFontSize, Storage.setItem, Storage.getItem]
  rw [hget]
  interval_cases v <;> decide

/-- Witness for C4 at `v = 16`. -/
theorem fontSize_store_load_roundtrip_witness :
    loadFontSize ((persistFontSize emptyStorage 16).getItem LS_KEYS.fontSize) =
      .finite 16 :=
  fontSize_store_load_roundtrip emptyStorage 16 (by decide) (by decide)

/-- C5: every operation producing a font size stays in [14,24]: the load
initializer always yields a finite value in range (for any stored value),
and the slider onChange yields a finite value in range for any numeric
(non-NaN) input, so every value the persistence effect writes is in
range. -/
theorem fontSize_always_clamped (stored : Option String) (value : String)
    (hv : jsStringToNumber value ≠ .nan) :
    (∃ q, loadFontSize stored = .finite q ∧ 14 ≤ q ∧ q ≤ 24) ∧
    (∃ q, onFontSizeChange value = .finite q ∧ 14 ≤ q ∧ q ≤ 24) := by
  have hbounds : ∀ q : ℚ, 14 ≤ max 14 (min 24 q) ∧ max 14 (min 24 q) ≤ 24 := by
    intro q
    refine ⟨le_max_left _ _, max_le (by norm_num) (min_le_left _ _)⟩
  constructor
  · unfold loadFontSize
    cases h : jsToNumber stored with
    | finite q =>
      refine ⟨max 14 (min 24 q), ?_, (hbounds q).1, (hbounds q).2⟩
      simp [JSNumber.isFinite, clamp_finite_14_24]
    | nan => exact ⟨16, by simp [JSNumber.isFinite], by norm_num, by norm_num⟩
    | posInf => exact ⟨16, by simp [JSNumber.isFinite], by norm_num, by norm_num⟩
    | negInf => exact ⟨16, by simp [JSNumber.isFinite], by norm_num, by norm_num⟩
  · unfold onFontSizeChange
    cases h : jsStringToNumber value with
    | finite q =>
      refine ⟨max 14 (min 24 q), ?_, (hbounds q).1, (hbounds q).2⟩
      rw [clamp_finite_14_24]
    | nan => exact absurd h hv
    | posInf =>
      refine ⟨24, ?_, by norm_num, by norm_num⟩
      show jsMax (.finite 14) (jsMin (.finite 24) .posInf) = .finite 24
      simp [jsMin, jsMax]
      norm_num
    | negInf => exact ⟨14, rfl, by norm_num, by norm_num⟩

/-- Witness for C5 at `stored = none`, `value = "30"`. -/
theorem fontSize_always_clamped_witness :
    jsStringToNumber "30" ≠ .nan ∧
    ((∃ q, loadFontSize none = .finite q ∧ 14 ≤ q ∧ q ≤ 24) ∧
     (∃ q, onFontSizeChange "30" = .finite q ∧ 14 ≤ q ∧ q ≤ 24)) :=
  ⟨by decide, fontSize_always_clamped none "30" (by decide)⟩

/-- C6: for every lesson card and every value of the simplified-mode flag,
exactly one of the two text variants is visible — the ELI5 text exactly
when the flag is on, the normal text exactly when it is off. -/
theorem lessonCard_exactly_one_variant (l : Lesson) (hl : l ∈ lessons) (b : Bool) :
    (lessonCardView b).eli5Shown = b ∧ (lessonCardView b).normalShown = !b ∧
    (lessonCardView b).normalShown ≠ (lessonCardView b).eli5Shown := by
  cases b <;> simp [lessonCardView]

/-- Witness for C6 at the first lesson with the flag on. -/
theorem lessonCard_exactly_one_variant_witness :
    (lessonCardView true).eli5Shown = true ∧
    (lessonCardView true).normalShown = !true ∧
    (lessonCardView true).normalShown ≠ (lessonCardView true).eli5Shown :=
  lessonCard_exactly_one_variant (lessons.get ⟨0, by decide⟩) (by decide) true

/-- C7: selecting `"correct"` yields the positive feedback, selecting
`"mouse"` or `"spacebar"` yields the negative feedback, and a selection
made from any prior state (answered or not, same option or not) produces
the same state as from any other prior state — there is no lock after the
first answer. -/
theorem quiz_feedback_follows_selection (st : QuizState) :
    quizFeedback (selectOption st "correct") = some correctFeedback ∧
    quizFeedback (selectOption st "mouse") = some wrongFeedback ∧
    quizFeedback (selectOption st "spacebar") = some wrongFeedback ∧
    (∀ prev k, selectOption prev k = selectOption st k) := by
  exact ⟨rfl, rfl, rfl, fun prev k => rfl⟩

/-- C8: a send whose input trims to empty is a no-op: the state (message
log included) is returned unchanged. -/
theorem send_empty_is_noop (st : HelpState) (h : jsTrim st.text = "") :
    send st = st := by
  simp [send, h]

/-- Witness for C8 on a whitespace-only input. -/
theorem send_empty_is_noop_witness :
    jsTrim "   " = "" ∧
    send ⟨true, initialMessages, "   "⟩ = ⟨true, initialMessages, "   "⟩ :=
  ⟨by decide, send_empty_is_noop ⟨true, initialMessages, "   "⟩ (by decide)⟩

/-- C9: toggling the help panel three times from the collapsed state, with
any message log and input text, leaves the panel expanded with the log and
text untouched; moreover a single toggle never changes anything but the
open flag. -/
theorem toggle_three_times_frame (msgs : List Message) (txt : String) :
    toggleOpen (toggleOpen (toggleOpen ⟨false, msgs, txt⟩)) = ⟨true, msgs, txt⟩ ∧
    (∀ st : HelpState,
      (toggleOpen st).messages = st.messages ∧ (toggleOpen st).text = st.text) :=
  ⟨rfl, fun _ => ⟨rfl, rfl⟩⟩

/-- C10: the loaded simplified-mode flag is true exactly when the stored
value is the string `"true"`; any other stored string, the empty string,
and an absent value all yield false. -/
theorem eli5_load_iff_stored_true (stored : Option String) :
    loadEli5 stored = true ↔ stored = some "true" := by
  cases stored with
  | none => simp [loadEli5]
  | some s =>
    simp only [loadEli5, Option.some.injEq]
    by_cases h : s = ""
    · subst h; simp
    · simp [h]
